import Mathlib

/-!
# Shallow embedding of `multi_static_camera_pipeline.cpp`

This file embeds the `MultiStaticCameraPipeline` orchestrator of the
depth_fusion repository into Lean 4 and proves (or refutes) the frozen
claims of its specification.

The pipeline owns, per camera: an input buffer (externally written), a
raw-depth buffer, an undistortion-map buffer, and an undistorted-depth
buffer, plus the camera's calibration parameters and camera-from-world
pose.  It is a client of an external volumetric accumulator
(`regular_grid_`) consumed through Fuse / FuseMultiple / Raycast /
AdaptiveRaycast / Triangulate / Reset, and of an external depth
undistortion kernel (`depth_processor_`).  Scalar floats are modelled as
rationals; integer sizes as `Int`; out-of-bounds `std::vector` accesses
(undefined behavior in the C++ source) surface as `Option.none`.
Calls into the external collaborators are recorded as explicit events:
the volume is a trace of fusion operations, and the undistortion kernel
records the exact arguments it was handed.
-/

/-- Two-component integer vector (`Vector2i` of libcgt). -/
structure Vector2i where
  x : Int
  y : Int
deriving DecidableEq, Repr

/-- Three-component integer vector (`Vector3i` of libcgt). -/
structure Vector3i where
  x : Int
  y : Int
  z : Int
deriving DecidableEq, Repr

/-- Two-component scalar vector (`Vector2f` / `float2`), floats as rationals. -/
structure Vector2f where
  x : Rat
  y : Rat
deriving DecidableEq, Repr

/-- Three-component scalar vector (`Vector3f`), floats as rationals. -/
structure Vector3f where
  x : Rat
  y : Rat
  z : Rat
deriving DecidableEq, Repr

/-- Four-component scalar vector (`Vector4f` / `float4`), floats as rationals. -/
structure Vector4f where
  x : Rat
  y : Rat
  z : Rat
  w : Rat
deriving DecidableEq, Repr

/-- Homogeneous 4x4 scalar matrix (`Matrix4f` of libcgt), stored by rows. -/
structure Matrix4f where
  r0 : Vector4f
  r1 : Vector4f
  r2 : Vector4f
  r3 : Vector4f
deriving DecidableEq, Repr

/-- The identity `Matrix4f`. -/
def Matrix4f.identity : Matrix4f :=
  { r0 := ⟨1, 0, 0, 0⟩
    r1 := ⟨0, 1, 0, 0⟩
    r2 := ⟨0, 0, 1, 0⟩
    r3 := ⟨0, 0, 0, 1⟩ }

/-- Modelled from the spec: method `Matrix4f::transformPoint` of libcgt (code not
under src/).  The OutputProjector "maps each position by full transform
(including translation)": the affine action of the matrix on a 3D point. -/
def Matrix4f.transformPoint (m : Matrix4f) (v : Vector3f) : Vector3f :=
  { x := m.r0.x * v.x + m.r0.y * v.y + m.r0.z * v.z + m.r0.w
    y := m.r1.x * v.x + m.r1.y * v.y + m.r1.z * v.z + m.r1.w
    z := m.r2.x * v.x + m.r2.y * v.y + m.r2.z * v.z + m.r2.w }

/-- Modelled from the spec: method `Matrix4f::transformNormal` of libcgt (code not
under src/).  The OutputProjector maps "each normal by the transform's
linear part only" (direction-only, no translation). -/
def Matrix4f.transformNormal (m : Matrix4f) (n : Vector3f) : Vector3f :=
  { x := m.r0.x * n.x + m.r0.y * n.y + m.r0.z * n.z
    y := m.r1.x * n.x + m.r1.y * n.y + m.r1.z * n.z
    z := m.r2.x * n.x + m.r2.y * n.y + m.r2.z * n.z }

/-- Camera intrinsics: focal length and principal point
(`libcgt::core::cameras::Intrinsics`). -/
structure Intrinsics where
  focalLength : Vector2f
  principalPoint : Vector2f
deriving DecidableEq, Repr

/-- A scalar interval `Range1f` with `left` (min) and `right` (max) endpoints. -/
structure Range1f where
  left : Rat
  right : Rat
deriving DecidableEq, Repr

/-- Accessor `Range1f::leftRight()`: both endpoints packed into a `Vector2f`. -/
def Range1f.leftRight (r : Range1f) : Vector2f :=
  ⟨r.left, r.right⟩

/-- A rigid transform (`EuclideanTransform` of libcgt), carried by its
homogeneous matrix. -/
structure EuclideanTransform where
  m : Matrix4f
deriving DecidableEq, Repr

/-- Conversion `EuclideanTransform::asMatrix()` (used as `.asMatrix()` in the source). -/
def EuclideanTransform.asMatrix (e : EuclideanTransform) : Matrix4f :=
  e.m

/-- Modelled from the spec: the inverse of a rigid camera-from-world
transform ("world-from-camera is its algebraic inverse, derived ...
recomputed when needed"; code not under src/).  For a rigid matrix
`[[R t],[0 1]]` the inverse is `[[Rt, -Rt t],[0 1]]` with `Rt` the
transpose of the rotation block. -/
def EuclideanTransform.inverse (e : EuclideanTransform) : EuclideanTransform :=
  let m := e.m
  { m :=
    { r0 := ⟨m.r0.x, m.r1.x, m.r2.x,
             -(m.r0.x * m.r0.w + m.r1.x * m.r1.w + m.r2.x * m.r2.w)⟩
      r1 := ⟨m.r0.y, m.r1.y, m.r2.y,
             -(m.r0.y * m.r0.w + m.r1.y * m.r1.w + m.r2.y * m.r2.w)⟩
      r2 := ⟨m.r0.z, m.r1.z, m.r2.z,
             -(m.r0.z * m.r0.w + m.r1.z * m.r1.w + m.r2.z * m.r2.w)⟩
      r3 := ⟨0, 0, 0, 1⟩ } }

/-- A similarity transform (`SimilarityTransform` of libcgt), carried
opaquely by its matrix; the pipeline only stores and passes it through. -/
structure SimilarityTransform where
  m : Matrix4f
deriving DecidableEq, Repr

/-- The per-camera undistortion map held in the calibration data
(`camera_params[i].depth.undistortion_map`); its pixel contents are opaque
to the orchestrator, carried as an abstract content id. -/
structure UndistortionMap where
  data : Nat
deriving DecidableEq, Repr

/-- Contents of a depth buffer, tracked by provenance: uninitialized at
construction, raw frames pushed by the capture source, or the result of an
undistortion call with the exact arguments the kernel was handed. -/
inductive DepthData where
  | uninit : DepthData
  | pushed (frame : Nat) : DepthData
  | undistorted (src : DepthData) (mapData : Nat)
      (intrinsics : Intrinsics) (depthRange : Range1f) : DepthData
deriving DecidableEq, Repr

/-- A device 2D depth buffer (`DeviceArray2D<float>`): a resolution fixed
at allocation and contents. -/
structure DepthBuffer where
  resolution : Vector2i
  contents : DepthData
deriving DecidableEq, Repr

/-- The pipeline's per-camera undistortion-map buffer
(`DeviceArray2D<float2>` in `depth_camera_undistort_maps_`): allocated at
the camera's depth resolution, holding the calibration map's contents. -/
structure MapBuffer where
  resolution : Vector2i
  data : Nat
deriving DecidableEq, Repr

/-- The externally written per-camera input buffer (`InputBuffer`),
allocated from the color and depth resolutions; the pipeline reads its
`depth_meters` view. -/
structure InputBuffer where
  color_resolution : Vector2i
  depth_meters : DepthBuffer
deriving DecidableEq, Repr

/-- The single depth undistortion engine (`DepthProcessor`), constructed
once from one camera's intrinsics and depth range. -/
structure DepthProcessor where
  intrinsics : Intrinsics
  depth_range : Range1f
deriving DecidableEq, Repr

/-- Modelled from the spec: method `DepthProcessor::Undistort` (code not under
src/) is the DepthUndistorter, a stateless transform
"(rawDepth, undistortionMap, intrinsics, depthRange) -> undistortedDepth,
same resolution in and out", writing only the output buffer.  The engine
supplies the intrinsics and depth range it stores; the output buffer keeps
its resolution and records the arguments of the call. -/
def DepthProcessor.Undistort (dp : DepthProcessor) (raw : DepthBuffer)
    (map : MapBuffer) (out : DepthBuffer) : DepthBuffer :=
  { out with contents := .undistorted raw.contents map.data dp.intrinsics dp.depth_range }

/-- Per-camera packed parameters for the batched fuse
(`CalibratedPosedDepthCamera`): packed focal length + principal point,
depth min/max, and camera-from-world matrix. -/
structure CalibratedPosedDepthCamera where
  flpp : Vector4f
  depth_min_max : Vector2f
  camera_from_world : Matrix4f
deriving DecidableEq, Repr

/-- Value-initialization of `std::vector<CalibratedPosedDepthCamera> c(3)`:
all fields of each element are zero. -/
instance : Inhabited CalibratedPosedDepthCamera :=
  ⟨{ flpp := ⟨0, 0, 0, 0⟩
     depth_min_max := ⟨0, 0⟩
     camera_from_world :=
      { r0 := ⟨0, 0, 0, 0⟩, r1 := ⟨0, 0, 0, 0⟩
        r2 := ⟨0, 0, 0, 0⟩, r3 := ⟨0, 0, 0, 0⟩ } }⟩

/-- One single-camera fusion call into the volume: the packed intrinsics,
the depth range, the camera-from-world matrix, and the depth map passed. -/
structure FuseEvent where
  flpp : Vector4f
  depth_range : Range1f
  camera_from_world : Matrix4f
  depth_map : DepthBuffer
deriving DecidableEq, Repr

/-- A mutating call the pipeline issues into the external volumetric grid. -/
inductive VolumeOp where
  | fuse (e : FuseEvent) : VolumeOp
  | fuseMultiple (cameras : List CalibratedPosedDepthCamera)
      (depth_maps : List DepthBuffer) : VolumeOp
  | reset : VolumeOp
deriving DecidableEq, Repr

/-- The external volumetric accumulator (`RegularGrid`), as seen from the
pipeline: its static geometric description plus the trace of mutating
calls issued into it since construction. -/
structure RegularGridState where
  grid_resolution : Vector3i
  world_from_grid : SimilarityTransform
  max_tsdf_value : Rat
  ops : List VolumeOp
deriving DecidableEq, Repr

/-- Volume call `regular_grid_.Fuse(flpp, depth_range, cfw, depth)`: one single-camera
fusion call appended to the volume's history. -/
def RegularGridState.Fuse (g : RegularGridState) (flpp : Vector4f)
    (depth_range : Range1f) (camera_from_world : Matrix4f)
    (depth_map : DepthBuffer) : RegularGridState :=
  { g with ops := g.ops ++ [.fuse ⟨flpp, depth_range, camera_from_world, depth_map⟩] }

/-- Volume call `regular_grid_.FuseMultiple(c, depth_maps)`: one batched fusion call
appended to the volume's history. -/
def RegularGridState.FuseMultiple (g : RegularGridState)
    (cameras : List CalibratedPosedDepthCamera)
    (depth_maps : List DepthBuffer) : RegularGridState :=
  { g with ops := g.ops ++ [.fuseMultiple cameras depth_maps] }

/-- Volume call `regular_grid_.Reset()`. -/
def RegularGridState.Reset (g : RegularGridState) : RegularGridState :=
  { g with ops := g.ops ++ [.reset] }

/-- Modelled from the spec: the volume collaborator's contract (code not
under src/) that a batched `FuseMultiple` call is "functionally equivalent
end result" to sequential single-camera fuses over the paired
parameter/depth-map lists; a single fuse contributes itself. -/
def VolumeOp.fusedEvents : VolumeOp → List FuseEvent
  | .fuse e => [e]
  | .fuseMultiple cameras depth_maps =>
      List.zipWith
        (fun c d =>
          { flpp := c.flpp
            depth_range := ⟨c.depth_min_max.x, c.depth_min_max.y⟩
            camera_from_world := c.camera_from_world
            depth_map := d })
        cameras depth_maps
  | .reset => []

/-- The volume state up to the external fusion contract: the single-camera
fusion evidence accumulated since the last reset. -/
def RegularGridState.fusedHistory (g : RegularGridState) : List FuseEvent :=
  g.ops.foldl
    (fun acc op =>
      match op with
      | .reset => []
      | _ => acc ++ op.fusedEvents)
    []

/-- Depth-camera calibration data (`camera_params[i].depth`). -/
structure DepthCalibration where
  intrinsics : Intrinsics
  depth_range : Range1f
  resolution : Vector2i
  undistortion_map : UndistortionMap
deriving DecidableEq, Repr

/-- Color-camera calibration data (`camera_params[i].color`); only its
resolution is consumed by the pipeline. -/
structure ColorCalibration where
  resolution : Vector2i
deriving DecidableEq, Repr

/-- One camera's full calibration (`RGBDCameraParameters`). -/
structure RGBDCameraParameters where
  color : ColorCalibration
  depth : DepthCalibration
deriving DecidableEq, Repr

/-- A full perspective camera description (`PerspectiveCamera` of libcgt):
camera-from-world pose, intrinsics at the calibrated image size, image
size, and near/far depth bounds. -/
structure PerspectiveCamera where
  camera_from_world : EuclideanTransform
  intrinsics : Intrinsics
  image_size : Vector2f
  z_near : Rat
  z_far : Rat
deriving DecidableEq, Repr

/-- Modelled from the spec: method `PerspectiveCamera::intrinsics(screenSize)` of
libcgt (code not under src/): "intrinsics used for raycasting are rescaled
from the viewpoint's intrinsics to match the output buffer's resolution
(aspect-correct scaling of focal length/principal point)".  Focal length
and principal point are scaled by the per-axis ratio of the requested
screen size to the camera's own image size. -/
def PerspectiveCamera.intrinsicsAt (cam : PerspectiveCamera)
    (screenSize : Vector2f) : Intrinsics :=
  { focalLength :=
      ⟨cam.intrinsics.focalLength.x * screenSize.x / cam.image_size.x,
       cam.intrinsics.focalLength.y * screenSize.y / cam.image_size.y⟩
    principalPoint :=
      ⟨cam.intrinsics.principalPoint.x * screenSize.x / cam.image_size.x,
       cam.intrinsics.principalPoint.y * screenSize.y / cam.image_size.y⟩ }

/-- Derived accessor `PerspectiveCamera::worldFromCamera()`: the inverse of the stored
camera-from-world pose. -/
def PerspectiveCamera.worldFromCamera (cam : PerspectiveCamera) : EuclideanTransform :=
  cam.camera_from_world.inverse

/-- Packing of intrinsics into a `Vector4f` `flpp`: focal length in the
first two components, principal point in the last two, as in the
brace-initializer of `Fuse()` and the `make_float4` of `FuseMultiple()`. -/
def packFlpp (i : Intrinsics) : Vector4f :=
  ⟨i.focalLength.x, i.focalLength.y, i.principalPoint.x, i.principalPoint.y⟩

/-- A triangulated mesh (`TriangleMesh`): vertex positions and normals. -/
structure TriangleMesh where
  positions : List Vector3f
  normals : List Vector3f
deriving DecidableEq, Repr

/-- Outcome of an unchecked C++ `std::vector::operator[]` subscript, as
observed through the embedding: an in-bounds subscript yields the
element; an out-of-bounds subscript has no defined outcome in C++ — it is
undefined behavior, which the embedding marks explicitly.  The marker is
not a value or fault the program produces: the subscripted function has
no error channel at all. -/
inductive SubscriptResult (α : Type) where
  | value (a : α) : SubscriptResult α
  | undefinedBehavior : SubscriptResult α
deriving DecidableEq, Repr

/-- The orchestrator's state (`MultiStaticCameraPipeline`): the shared
volume, the stored calibrations and poses, the single undistortion engine,
and the per-camera buffer lists. -/
structure MultiStaticCameraPipeline where
  regular_grid : RegularGridState
  camera_params : List RGBDCameraParameters
  depth_camera_poses_cfw : List EuclideanTransform
  depth_processor : DepthProcessor
  depth_meters : List DepthBuffer
  depth_camera_undistort_maps : List MapBuffer
  undistorted_depth_meters : List DepthBuffer
  input_buffers : List InputBuffer
deriving DecidableEq, Repr

namespace MultiStaticCameraPipeline

/-- The constructor.  `depth_processor_` is initialized from
`camera_params[0]` — an out-of-bounds access (hence `none`) when the
calibration list is empty.  The body loops over the calibration list,
allocating for camera `i`: `depth_meters_[i]` and
`undistorted_depth_meters_[i]` at the depth resolution,
`depth_camera_undistort_maps_[i]` at the depth resolution (then filled
from the calibration's undistortion map), and `input_buffers_[i]` from the
color and depth resolutions.  No length or resolution validation occurs. -/
def mk? (camera_params : List RGBDCameraParameters)
    (depth_camera_poses_cfw : List EuclideanTransform)
    (grid_resolution : Vector3i) (world_from_grid : SimilarityTransform)
    (max_tsdf_value : Rat) : Option MultiStaticCameraPipeline := do
  let first ← camera_params.get? 0
  some
    { regular_grid :=
        { grid_resolution := grid_resolution
          world_from_grid := world_from_grid
          max_tsdf_value := max_tsdf_value
          ops := [] }
      camera_params := camera_params
      depth_camera_poses_cfw := depth_camera_poses_cfw
      depth_processor := ⟨first.depth.intrinsics, first.depth.depth_range⟩
      depth_meters :=
        camera_params.map (fun cp => ⟨cp.depth.resolution, .uninit⟩)
      depth_camera_undistort_maps :=
        camera_params.map (fun cp => ⟨cp.depth.resolution, cp.depth.undistortion_map.data⟩)
      undistorted_depth_meters :=
        camera_params.map (fun cp => ⟨cp.depth.resolution, .uninit⟩)
      input_buffers :=
        camera_params.map
          (fun cp => ⟨cp.color.resolution, ⟨cp.depth.resolution, .uninit⟩⟩) }

/-- Accessor `NumCameras()`. -/
def NumCameras (p : MultiStaticCameraPipeline) : Int :=
  p.camera_params.length

/-- Accessor `GetCameraParameters(camera_index)`:
`return camera_params_[camera_index];` — an `int` index and no bounds
check.  The `int` converts to the unsigned `size_t` (a negative index
wraps to a huge one), so exactly the indexes in `[0, N)` subscript an
element; any other index is an out-of-bounds `operator[]` access, which
is undefined behavior, not a signaled fault. -/
def GetCameraParameters (p : MultiStaticCameraPipeline)
    (camera_index : Int) : SubscriptResult RGBDCameraParameters :=
  if 0 ≤ camera_index then
    match p.camera_params.get? camera_index.toNat with
    | some cp => .value cp
    | none => .undefinedBehavior
  else
    .undefinedBehavior

/-- Accessor `TSDFGridBoundingBox()` passes the volume's bounding-box query through;
modelled by its static description (grid resolution). -/
def TSDFGridBoundingBox (p : MultiStaticCameraPipeline) : Vector3i :=
  p.regular_grid.grid_resolution

/-- Accessor `TSDFWorldFromGridTransform()`. -/
def TSDFWorldFromGridTransform (p : MultiStaticCameraPipeline) : SimilarityTransform :=
  p.regular_grid.world_from_grid

/-- Operation `Reset()`: clears the shared volume; nothing else is touched. -/
def Reset (p : MultiStaticCameraPipeline) : MultiStaticCameraPipeline :=
  { p with regular_grid := p.regular_grid.Reset }

/-- Operation `NotifyInputUpdated(camera_index, color_updated, depth_updated)`:
copies `input_buffers_[i].depth_meters` into `depth_meters_[i]`, then runs
`depth_processor_.Undistort(depth_meters_[i],
depth_camera_undistort_maps_[i], undistorted_depth_meters_[i])`.  The two
flags are ignored.  Out-of-bounds vector accesses surface as `none`.
The external `copy` into `depth_meters_[i]` replaces the buffer's contents
and never resizes it (spec contract: the pushed frame's resolution matches
the calibrated resolution). -/
def NotifyInputUpdated (p : MultiStaticCameraPipeline) (camera_index : Nat)
    (color_updated depth_updated : Bool) : Option MultiStaticCameraPipeline := do
  let input ← p.input_buffers.get? camera_index
  let raw ← p.depth_meters.get? camera_index
  let raw' : DepthBuffer := { raw with contents := input.depth_meters.contents }
  let map ← p.depth_camera_undistort_maps.get? camera_index
  let und ← p.undistorted_depth_meters.get? camera_index
  let und' := p.depth_processor.Undistort raw' map und
  some
    { p with
      depth_meters := p.depth_meters.set camera_index raw'
      undistorted_depth_meters := p.undistorted_depth_meters.set camera_index und' }

/-- Accessor `GetInputBuffer(camera_index)` (read side of the accessor). -/
def GetInputBuffer (p : MultiStaticCameraPipeline)
    (camera_index : Nat) : Option InputBuffer :=
  p.input_buffers.get? camera_index

/-- The external capture source writing a new raw depth frame through the
mutable reference returned by `GetInputBuffer(camera_index)`: replaces the
input buffer's depth contents (buffer resolutions are externally owned and
per the interface contract match the calibrated resolution). -/
def PushInputDepth (p : MultiStaticCameraPipeline) (camera_index : Nat)
    (frame : Nat) : Option MultiStaticCameraPipeline := do
  let input ← p.input_buffers.get? camera_index
  let input' : InputBuffer :=
    { input with depth_meters := { input.depth_meters with contents := .pushed frame } }
  some { p with input_buffers := p.input_buffers.set camera_index input' }

/-- Accessor `GetUndistortedDepthMap(camera_index)`. -/
def GetUndistortedDepthMap (p : MultiStaticCameraPipeline)
    (camera_index : Nat) : Option DepthBuffer :=
  p.undistorted_depth_meters.get? camera_index

/-- Accessor `GetDepthCamera(camera_index)`: a `PerspectiveCamera` built fresh from
the stored pose and calibration. -/
def GetDepthCamera (p : MultiStaticCameraPipeline)
    (camera_index : Nat) : Option PerspectiveCamera := do
  let pose ← p.depth_camera_poses_cfw.get? camera_index
  let cp ← p.camera_params.get? camera_index
  some
    { camera_from_world := pose
      intrinsics := cp.depth.intrinsics
      image_size := ⟨(cp.depth.resolution.x : Rat), (cp.depth.resolution.y : Rat)⟩
      z_near := cp.depth.depth_range.left
      z_far := cp.depth.depth_range.right }

/-- The body of one iteration of the `Fuse()` loop: builds the packed
`flpp` from `camera_params_[i]` and issues
`regular_grid_.Fuse(flpp, depth_range, poses[i].asMatrix(),
undistorted_depth_meters_[i])`; the vector accesses surface as `none` when
out of bounds. -/
def fuseOpAt (p : MultiStaticCameraPipeline) (i : Nat) : Option FuseEvent := do
  let cp ← p.camera_params.get? i
  let pose ← p.depth_camera_poses_cfw.get? i
  let depth ← p.undistorted_depth_meters.get? i
  some
    { flpp := packFlpp cp.depth.intrinsics
      depth_range := cp.depth.depth_range
      camera_from_world := pose.asMatrix
      depth_map := depth }

/-- Sequential accumulation of the per-iteration fuse events (the loop of
`Fuse()`), propagating an out-of-bounds failure. -/
def fuseLoop (p : MultiStaticCameraPipeline) : List Nat → Option (List FuseEvent)
  | [] => some []
  | i :: rest => do
    let e ← p.fuseOpAt i
    let es ← p.fuseLoop rest
    some (e :: es)

/-- Operation `Fuse()`: for `i` from 0 to `depth_meters_.size() - 1`, one
single-camera fusion call into the shared volume. -/
def Fuse (p : MultiStaticCameraPipeline) : Option MultiStaticCameraPipeline := do
  let es ← p.fuseLoop (List.range p.depth_meters.length)
  some
    { p with
      regular_grid :=
        { p.regular_grid with ops := p.regular_grid.ops ++ es.map VolumeOp.fuse } }

/-- The packed entry the `FuseMultiple()` loop writes for camera `i`:
`make_float4` of focal length and principal point, `make_float2` of the
depth range's left/right, and the pose matrix. -/
def packedCameraAt (p : MultiStaticCameraPipeline)
    (i : Nat) : Option CalibratedPosedDepthCamera := do
  let cp ← p.camera_params.get? i
  let pose ← p.depth_camera_poses_cfw.get? i
  some
    { flpp := packFlpp cp.depth.intrinsics
      depth_min_max := cp.depth.depth_range.leftRight
      camera_from_world := pose.asMatrix }

/-- The loop of `FuseMultiple()`: for each index of the loop range, write
the packed entry into `c[i]`.  `c` was allocated with exactly 3 elements;
a write at `i ≥ 3` is past the end of the vector (undefined behavior),
surfaced as `none`. -/
def packLoop (p : MultiStaticCameraPipeline) :
    List Nat → List CalibratedPosedDepthCamera →
    Option (List CalibratedPosedDepthCamera)
  | [], c => some c
  | i :: rest, c => do
    let entry ← p.packedCameraAt i
    if i < c.length then
      p.packLoop rest (c.set i entry)
    else
      none

/-- Operation `FuseMultiple()`: packs the per-camera parameters into
`std::vector<CalibratedPosedDepthCamera> c(3)` — three value-initialized
entries regardless of the camera count — then issues one batched
`regular_grid_.FuseMultiple(c, undistorted_depth_meters_)` call. -/
def FuseMultiple (p : MultiStaticCameraPipeline) : Option MultiStaticCameraPipeline := do
  let c ← p.packLoop (List.range p.depth_meters.length)
    (List.replicate 3 default)
  some
    { p with
      regular_grid := p.regular_grid.FuseMultiple c p.undistorted_depth_meters }

/-- The call descriptor `Raycast()` hands to the volume: which strategy
was dispatched, the packed rescaled intrinsics, the world-from-camera
matrix, and the output resolution raycast into. -/
structure RaycastEvent where
  adaptive : Bool
  flpp : Vector4f
  world_from_camera : Matrix4f
  out_size : Vector2i
deriving DecidableEq, Repr

/-- Operation `Raycast(camera, world_points, world_normals)`: rescales the
viewpoint's intrinsics to `world_points.size()`, packs them, and
dispatches to `AdaptiveRaycast` when the `adaptive_raycast` flag is set,
to `Raycast` otherwise.  The output buffers are modelled by their
resolutions; the global gflag is an explicit argument. -/
def Raycast (p : MultiStaticCameraPipeline) (adaptive_raycast : Bool)
    (camera : PerspectiveCamera) (world_points_size world_normals_size : Vector2i) :
    RaycastEvent :=
  let intrinsics := camera.intrinsicsAt
    ⟨(world_points_size.x : Rat), (world_points_size.y : Rat)⟩
  let flpp := packFlpp intrinsics
  if adaptive_raycast then
    { adaptive := true
      flpp := flpp
      world_from_camera := camera.worldFromCamera.asMatrix
      out_size := world_points_size }
  else
    { adaptive := false
      flpp := flpp
      world_from_camera := camera.worldFromCamera.asMatrix
      out_size := world_points_size }

/-- Operation `Triangulate(output_from_world)`: extracts the volume's mesh, then
maps every position by `transformPoint` and every normal by
`transformNormal`.  The external `regular_grid_.Triangulate()` kernel is
modelled by passing in the mesh it returns for the current volume state. -/
def Triangulate (grid_mesh : TriangleMesh)
    (output_from_world : Matrix4f) : TriangleMesh :=
  { positions := grid_mesh.positions.map output_from_world.transformPoint
    normals := grid_mesh.normals.map output_from_world.transformNormal }

end MultiStaticCameraPipeline

namespace MultiStaticCameraPipeline

/-- An externally driven action on the pipeline: a capture source pushing
a new raw depth frame through `GetInputBuffer`, or a `NotifyInputUpdated`
call. -/
inductive PipelineCall where
  | push (camera_index : Nat) (frame : Nat) : PipelineCall
  | notify (camera_index : Nat) (color_updated depth_updated : Bool) : PipelineCall
deriving DecidableEq, Repr

/-- Runs a sequence of externally driven actions on the pipeline. -/
def runCalls (p : MultiStaticCameraPipeline) :
    List PipelineCall → Option MultiStaticCameraPipeline
  | [] => some p
  | .push i f :: rest => do
    let p' ← p.PushInputDepth i f
    runCalls p' rest
  | .notify i cu du :: rest => do
    let p' ← p.NotifyInputUpdated i cu du
    runCalls p' rest

end MultiStaticCameraPipeline

/-- A default (empty) pipeline value, used only to extract concrete
witness states from `Option` results. -/
instance : Inhabited MultiStaticCameraPipeline :=
  ⟨{ regular_grid :=
      { grid_resolution := ⟨0, 0, 0⟩
        world_from_grid := ⟨Matrix4f.identity⟩
        max_tsdf_value := 0
        ops := [] }
     camera_params := []
     depth_camera_poses_cfw := []
     depth_processor := ⟨⟨⟨0, 0⟩, ⟨0, 0⟩⟩, ⟨0, 0⟩⟩
     depth_meters := []
     depth_camera_undistort_maps := []
     undistorted_depth_meters := []
     input_buffers := [] }⟩

/-- A concrete camera calibration for witnesses and counterexamples;
distinct `k` give distinct intrinsics, depth ranges and undistortion
maps. -/
def sampleCalibration (k : Nat) : RGBDCameraParameters :=
  { color := ⟨⟨8, 8⟩⟩
    depth :=
      { intrinsics := ⟨⟨100 + k, 100 + k⟩, ⟨2, 2⟩⟩
        depth_range := ⟨1/2, 4 + k⟩
        resolution := ⟨4, 4⟩
        undistortion_map := ⟨70 + k⟩ } }

/-- Calibration lists for `n` pairwise distinct cameras. -/
def sampleParams (n : Nat) : List RGBDCameraParameters :=
  (List.range n).map sampleCalibration

/-- Identity poses for `n` cameras. -/
def samplePoses (n : Nat) : List EuclideanTransform :=
  List.replicate n ⟨Matrix4f.identity⟩

/-- A concretely constructed pipeline with `n` cameras. -/
def samplePipeline? (n : Nat) : Option MultiStaticCameraPipeline :=
  MultiStaticCameraPipeline.mk? (sampleParams n) (samplePoses n)
    ⟨64, 64, 64⟩ ⟨Matrix4f.identity⟩ (1/50)

/-- The constructed two-camera sample pipeline, extracted concretely. -/
def pipelineTwo : MultiStaticCameraPipeline :=
  (samplePipeline? 2).getD default

/-- The constructed four-camera sample pipeline, extracted concretely. -/
def pipelineFour : MultiStaticCameraPipeline :=
  (samplePipeline? 4).getD default

/-- The constructed one-camera sample pipeline, extracted concretely. -/
def pipelineOne : MultiStaticCameraPipeline :=
  (samplePipeline? 1).getD default

/-- Resolution invariant: every raw and undistorted depth buffer has the
resolution declared in the owning camera's calibration. -/
def MultiStaticCameraPipeline.ResolutionInvariant
    (p : MultiStaticCameraPipeline) : Prop :=
  ∀ i, ((p.depth_meters.get? i).map DepthBuffer.resolution =
          (p.camera_params.get? i).map (fun cp => cp.depth.resolution)) ∧
       ((p.undistorted_depth_meters.get? i).map DepthBuffer.resolution =
          (p.camera_params.get? i).map (fun cp => cp.depth.resolution))

/-- A calibration that is invalid per the spec: non-positive resolution
and a degenerate depth range (min greater than max). -/
def degenerateCalibration : RGBDCameraParameters :=
  { color := ⟨⟨0, 0⟩⟩
    depth :=
      { intrinsics := ⟨⟨100, 100⟩, ⟨2, 2⟩⟩
        depth_range := ⟨4, 1/2⟩
        resolution := ⟨0, 0⟩
        undistortion_map := ⟨9⟩ } }

/-- The two-camera pipeline after a capture push into camera 1. -/
def pipelineTwoPushed : MultiStaticCameraPipeline :=
  (pipelineTwo.runCalls [.push 1 9]).getD default

/-- The pushed two-camera pipeline after `NotifyInputUpdated(1, ...)`. -/
def pipelineTwoNotified : MultiStaticCameraPipeline :=
  (pipelineTwoPushed.NotifyInputUpdated 1 false false).getD default

/-- The two-camera pipeline after `NotifyInputUpdated(0, true, true)`. -/
def pipelineTwoNotifyZero : MultiStaticCameraPipeline :=
  (pipelineTwo.NotifyInputUpdated 0 true true).getD default

/-- The one-camera pipeline after a push and a notification. -/
def pipelineOneRun : MultiStaticCameraPipeline :=
  (pipelineOne.runCalls [.push 0 5, .notify 0 true false]).getD default

/-- Indexing after `List.set`: positions other than the written one are
unchanged, the written one holds the new value when in bounds. -/
theorem list_get?_set {α : Type} (l : List α) (i j : Nat) (a : α) :
    (l.set i a).get? j =
      if i = j then (l.get? j).map (fun _ => a) else l.get? j := by
  induction l generalizing i j with
  | nil => simp [List.set]
  | cons b bs ih =>
    cases i with
    | zero =>
      cases j with
      | zero => simp
      | succ j => simp [List.set]
    | succ i =>
      cases j with
      | zero => simp [List.set, Nat.succ_ne_zero]
      | succ j =>
        simp only [List.set, List.get?]
        rw [ih i j]
        by_cases h : i = j
        · simp [h]
        · simp [h, fun hc => h (Nat.succ_injective hc)]

namespace MultiStaticCameraPipeline

/-- Unfolding of the constructor into its explicit bind chain. -/
theorem mk?_def (camera_params : List RGBDCameraParameters)
    (poses : List EuclideanTransform) (g : Vector3i) (w : SimilarityTransform)
    (m : Rat) :
    mk? camera_params poses g w m =
      (camera_params.get? 0).bind fun first =>
      some
        { regular_grid := ⟨g, w, m, []⟩
          camera_params := camera_params
          depth_camera_poses_cfw := poses
          depth_processor := ⟨first.depth.intrinsics, first.depth.depth_range⟩
          depth_meters :=
            camera_params.map (fun cp => ⟨cp.depth.resolution, .uninit⟩)
          depth_camera_undistort_maps :=
            camera_params.map
              (fun cp => ⟨cp.depth.resolution, cp.depth.undistortion_map.data⟩)
          undistorted_depth_meters :=
            camera_params.map (fun cp => ⟨cp.depth.resolution, .uninit⟩)
          input_buffers :=
            camera_params.map
              (fun cp => ⟨cp.color.resolution, ⟨cp.depth.resolution, .uninit⟩⟩) } := rfl

/-- Destructuring a successful construction: the calibration list was
nonempty, and every field of the new pipeline is determined by the
constructor arguments. -/
theorem mk?_eq_some (camera_params : List RGBDCameraParameters)
    (poses : List EuclideanTransform) (g : Vector3i) (w : SimilarityTransform)
    (m : Rat) (p₀ : MultiStaticCameraPipeline)
    (h : mk? camera_params poses g w m = some p₀) :
    ∃ first, camera_params.get? 0 = some first ∧
      p₀ = { regular_grid := ⟨g, w, m, []⟩
             camera_params := camera_params
             depth_camera_poses_cfw := poses
             depth_processor := ⟨first.depth.intrinsics, first.depth.depth_range⟩
             depth_meters :=
               camera_params.map (fun cp => ⟨cp.depth.resolution, .uninit⟩)
             depth_camera_undistort_maps :=
               camera_params.map
                 (fun cp => ⟨cp.depth.resolution, cp.depth.undistortion_map.data⟩)
             undistorted_depth_meters :=
               camera_params.map (fun cp => ⟨cp.depth.resolution, .uninit⟩)
             input_buffers :=
               camera_params.map
                 (fun cp => ⟨cp.color.resolution, ⟨cp.depth.resolution, .uninit⟩⟩) } := by
  rw [mk?_def] at h
  simp only [Option.bind_eq_some] at h
  obtain ⟨first, h0, h1⟩ := h
  exact ⟨first, h0, (Option.some_injective _ h1).symm⟩

/-- Unfolding of `NotifyInputUpdated` into its explicit bind chain. -/
theorem notifyInputUpdated_def (p : MultiStaticCameraPipeline) (i : Nat)
    (cu du : Bool) :
    p.NotifyInputUpdated i cu du =
      (p.input_buffers.get? i).bind fun input =>
      (p.depth_meters.get? i).bind fun raw =>
      (p.depth_camera_undistort_maps.get? i).bind fun map =>
      (p.undistorted_depth_meters.get? i).bind fun und =>
      some
        { p with
          depth_meters :=
            p.depth_meters.set i { raw with contents := input.depth_meters.contents }
          undistorted_depth_meters :=
            p.undistorted_depth_meters.set i
              (p.depth_processor.Undistort
                { raw with contents := input.depth_meters.contents } map und) } := rfl

/-- Destructuring a successful `NotifyInputUpdated` call: the four vector
accesses for camera `i` succeeded and the new state updates exactly
`depth_meters_[i]` (the copy) and `undistorted_depth_meters_[i]` (the
undistortion output). -/
theorem notifyInputUpdated_eq_some (p : MultiStaticCameraPipeline) (i : Nat)
    (cu du : Bool) (p' : MultiStaticCameraPipeline)
    (h : p.NotifyInputUpdated i cu du = some p') :
    ∃ input raw map und,
      p.input_buffers.get? i = some input ∧
      p.depth_meters.get? i = some raw ∧
      p.depth_camera_undistort_maps.get? i = some map ∧
      p.undistorted_depth_meters.get? i = some und ∧
      p' = { p with
             depth_meters :=
               p.depth_meters.set i { raw with contents := input.depth_meters.contents }
             undistorted_depth_meters :=
               p.undistorted_depth_meters.set i
                 (p.depth_processor.Undistort
                   { raw with contents := input.depth_meters.contents } map und) } := by
  rw [notifyInputUpdated_def] at h
  simp only [Option.bind_eq_some] at h
  obtain ⟨input, h1, raw, h2, map, h3, und, h4, h5⟩ := h
  exact ⟨input, raw, map, und, h1, h2, h3, h4, (Option.some_injective _ h5).symm⟩

/-- Unfolding of `PushInputDepth` into its explicit bind chain. -/
theorem pushInputDepth_def (p : MultiStaticCameraPipeline) (i f : Nat) :
    p.PushInputDepth i f =
      (p.input_buffers.get? i).bind fun input =>
      some
        { p with
          input_buffers :=
            p.input_buffers.set i
              { input with
                depth_meters := { input.depth_meters with contents := .pushed f } } } := rfl

/-- Destructuring a successful capture-source push: the input-buffer
access succeeded and only `input_buffers_[i]`'s depth contents change. -/
theorem pushInputDepth_eq_some (p : MultiStaticCameraPipeline) (i f : Nat)
    (p' : MultiStaticCameraPipeline) (h : p.PushInputDepth i f = some p') :
    ∃ input,
      p.input_buffers.get? i = some input ∧
      p' = { p with
             input_buffers :=
               p.input_buffers.set i
                 { input with
                   depth_meters := { input.depth_meters with contents := .pushed f } } } := by
  rw [pushInputDepth_def] at h
  simp only [Option.bind_eq_some] at h
  obtain ⟨input, h1, h2⟩ := h
  exact ⟨input, h1, (Option.some_injective _ h2).symm⟩

/-- Fields that no externally driven action ever mutates: calibration,
poses, the undistortion engine, and the undistortion-map buffers stay
fixed across any run of pushes and notifications. -/
theorem runCalls_static_fields :
    ∀ (calls : List PipelineCall) (p p' : MultiStaticCameraPipeline),
      p.runCalls calls = some p' →
      p'.camera_params = p.camera_params ∧
      p'.depth_camera_poses_cfw = p.depth_camera_poses_cfw ∧
      p'.depth_processor = p.depth_processor ∧
      p'.depth_camera_undistort_maps = p.depth_camera_undistort_maps := by
  intro calls
  induction calls with
  | nil =>
    intro p p' h
    simp only [runCalls] at h
    rw [← Option.some_injective _ h]
    exact ⟨rfl, rfl, rfl, rfl⟩
  | cons c rest ih =>
    intro p p' h
    cases c with
    | push i f =>
      rw [show p.runCalls (.push i f :: rest) =
          (p.PushInputDepth i f).bind (fun q => q.runCalls rest) from rfl] at h
      simp only [Option.bind_eq_some] at h
      obtain ⟨q, h1, h2⟩ := h
      obtain ⟨input, _, hq⟩ := pushInputDepth_eq_some p i f q h1
      obtain ⟨e1, e2, e3, e4⟩ := ih q p' h2
      subst hq
      exact ⟨e1, e2, e3, e4⟩
    | notify i cu du =>
      rw [show p.runCalls (.notify i cu du :: rest) =
          (p.NotifyInputUpdated i cu du).bind (fun q => q.runCalls rest) from rfl] at h
      simp only [Option.bind_eq_some] at h
      obtain ⟨q, h1, h2⟩ := h
      obtain ⟨input, raw, map, und, _, _, _, _, hq⟩ :=
        notifyInputUpdated_eq_some p i cu du q h1
      obtain ⟨e1, e2, e3, e4⟩ := ih q p' h2
      subst hq
      exact ⟨e1, e2, e3, e4⟩

end MultiStaticCameraPipeline

namespace MultiStaticCameraPipeline

/-- A freshly constructed pipeline satisfies the resolution invariant. -/
theorem resolutionInvariant_of_mk? (camera_params : List RGBDCameraParameters)
    (poses : List EuclideanTransform) (g : Vector3i) (w : SimilarityTransform)
    (m : Rat) (p₀ : MultiStaticCameraPipeline)
    (h : mk? camera_params poses g w m = some p₀) :
    ResolutionInvariant p₀ := by
  obtain ⟨first, h0, hp⟩ := mk?_eq_some camera_params poses g w m p₀ h
  subst hp
  intro i
  constructor <;>
  · rw [List.get?_map, Option.map_map]
    cases camera_params.get? i <;> rfl

/-- One `NotifyInputUpdated` call preserves the resolution invariant: the
copy keeps the raw buffer's resolution and the undistortion keeps the
output buffer's resolution. -/
theorem notify_preserves_resolutionInvariant (p : MultiStaticCameraPipeline)
    (i : Nat) (cu du : Bool) (p' : MultiStaticCameraPipeline)
    (h : p.NotifyInputUpdated i cu du = some p')
    (hinv : ResolutionInvariant p) : ResolutionInvariant p' := by
  obtain ⟨input, raw, map, und, h1, h2, h3, h4, hp⟩ :=
    notifyInputUpdated_eq_some p i cu du p' h
  subst hp
  intro j
  have hj := hinv j
  constructor
  · show ((p.depth_meters.set i _).get? j).map DepthBuffer.resolution = _
    rw [list_get?_set]
    by_cases hij : i = j
    · subst hij
      rw [if_pos rfl, h2]
      rw [h2] at hj
      exact hj.1
    · rw [if_neg hij]
      exact hj.1
  · show ((p.undistorted_depth_meters.set i _).get? j).map DepthBuffer.resolution = _
    rw [list_get?_set]
    by_cases hij : i = j
    · subst hij
      rw [if_pos rfl, h4]
      rw [h4] at hj
      exact hj.2
    · rw [if_neg hij]
      exact hj.2

/-- A capture-source push touches only the input buffers and so preserves
the resolution invariant. -/
theorem push_preserves_resolutionInvariant (p : MultiStaticCameraPipeline)
    (i f : Nat) (p' : MultiStaticCameraPipeline)
    (h : p.PushInputDepth i f = some p')
    (hinv : ResolutionInvariant p) : ResolutionInvariant p' := by
  obtain ⟨input, h1, hp⟩ := pushInputDepth_eq_some p i f p' h
  subst hp
  exact hinv

/-- The resolution invariant is preserved by any sequence of externally
driven actions. -/
theorem runCalls_preserves_resolutionInvariant :
    ∀ (calls : List PipelineCall) (p p' : MultiStaticCameraPipeline),
      p.runCalls calls = some p' → ResolutionInvariant p → ResolutionInvariant p' := by
  intro calls
  induction calls with
  | nil =>
    intro p p' h hinv
    simp only [runCalls] at h
    rw [← Option.some_injective _ h]
    exact hinv
  | cons c rest ih =>
    intro p p' h hinv
    cases c with
    | push i f =>
      rw [show p.runCalls (.push i f :: rest) =
          (p.PushInputDepth i f).bind (fun q => q.runCalls rest) from rfl] at h
      simp only [Option.bind_eq_some] at h
      obtain ⟨q, h1, h2⟩ := h
      exact ih q p' h2 (push_preserves_resolutionInvariant p i f q h1 hinv)
    | notify i cu du =>
      rw [show p.runCalls (.notify i cu du :: rest) =
          (p.NotifyInputUpdated i cu du).bind (fun q => q.runCalls rest) from rfl] at h
      simp only [Option.bind_eq_some] at h
      obtain ⟨q, h1, h2⟩ := h
      exact ih q p' h2 (notify_preserves_resolutionInvariant p i cu du q h1 hinv)

/-- Unfolding of one iteration of the `Fuse()` loop body. -/
theorem fuseOpAt_def (p : MultiStaticCameraPipeline) (i : Nat) :
    p.fuseOpAt i =
      (p.camera_params.get? i).bind fun cp =>
      (p.depth_camera_poses_cfw.get? i).bind fun pose =>
      (p.undistorted_depth_meters.get? i).bind fun depth =>
      some
        { flpp := packFlpp cp.depth.intrinsics
          depth_range := cp.depth.depth_range
          camera_from_world := pose.asMatrix
          depth_map := depth } := rfl

/-- Unfolding of a `Fuse()` loop step. -/
theorem fuseLoop_cons_def (p : MultiStaticCameraPipeline) (i : Nat)
    (rest : List Nat) :
    p.fuseLoop (i :: rest) =
      (p.fuseOpAt i).bind fun e =>
      (p.fuseLoop rest).bind fun es =>
      some (e :: es) := rfl

/-- When every loop index has in-bounds camera data, the `Fuse()` loop
succeeds and collects exactly one event per index, in order. -/
theorem fuseLoop_collects (p : MultiStaticCameraPipeline) :
    ∀ l : List Nat, (∀ i ∈ l, (p.fuseOpAt i).isSome) →
      ∃ es, p.fuseLoop l = some es ∧ es.length = l.length ∧
        ∀ k, es.get? k = (l.get? k).bind p.fuseOpAt := by
  intro l
  induction l with
  | nil =>
    intro _
    refine ⟨[], rfl, rfl, fun k => ?_⟩
    cases k <;> rfl
  | cons i rest ih =>
    intro h
    obtain ⟨e, he⟩ := Option.isSome_iff_exists.mp (h i (List.mem_cons_self i rest))
    obtain ⟨es, hes, hlen, hget⟩ := ih (fun j hj => h j (List.mem_cons_of_mem i hj))
    refine ⟨e :: es, ?_, by simp [hlen], fun k => ?_⟩
    · rw [fuseLoop_cons_def, he, hes]
      rfl
    · cases k with
      | zero => simpa using he.symm
      | succ k => simpa using hget k

/-- With equal camera, pose and buffer list lengths, every in-range index
yields a fuse event. -/
theorem fuseOpAt_isSome (p : MultiStaticCameraPipeline)
    (hc : p.camera_params.length = p.depth_meters.length)
    (hp : p.depth_camera_poses_cfw.length = p.depth_meters.length)
    (hu : p.undistorted_depth_meters.length = p.depth_meters.length)
    (i : Nat) (hi : i < p.depth_meters.length) : (p.fuseOpAt i).isSome := by
  have h1 : i < p.camera_params.length := by omega
  have h2 : i < p.depth_camera_poses_cfw.length := by omega
  have h3 : i < p.undistorted_depth_meters.length := by omega
  rw [fuseOpAt_def, List.get?_eq_get h1, List.get?_eq_get h2, List.get?_eq_get h3]
  rfl

/-- Unfolding of a `FuseMultiple()` packing-loop step. -/
theorem packLoop_cons_def (p : MultiStaticCameraPipeline) (i : Nat)
    (rest : List Nat) (c : List CalibratedPosedDepthCamera) :
    p.packLoop (i :: rest) c =
      (p.packedCameraAt i).bind fun entry =>
        if i < c.length then p.packLoop rest (c.set i entry) else none := rfl

/-- When some loop index reaches past the capacity of the packed vector,
the packing loop fails (the write would be out of bounds). -/
theorem packLoop_overflow (p : MultiStaticCameraPipeline) :
    ∀ (l : List Nat) (c : List CalibratedPosedDepthCamera),
      (∃ i ∈ l, c.length ≤ i) → p.packLoop l c = none := by
  intro l
  induction l with
  | nil =>
    rintro c ⟨i, hi, -⟩
    exact absurd hi (List.not_mem_nil i)
  | cons a rest ih =>
    rintro c ⟨i, hi, hlen⟩
    rw [packLoop_cons_def]
    cases hpa : p.packedCameraAt a with
    | none => rfl
    | some e =>
      simp only [Option.some_bind]
      by_cases hac : a < c.length
      · rw [if_pos hac]
        apply ih
        refine ⟨i, ?_, ?_⟩
        · rcases List.mem_cons.mp hi with h | h
          · subst h; omega
          · exact h
        · rw [List.length_set]
          exact hlen
      · rw [if_neg hac]

end MultiStaticCameraPipeline

/-- Applying the identity matrix as a point transform is the identity. -/
theorem Matrix4f.transformPoint_identity (v : Vector3f) :
    Matrix4f.identity.transformPoint v = v := by
  cases v with
  | mk x y z => simp [Matrix4f.transformPoint, Matrix4f.identity]

/-- Applying the identity matrix as a normal transform is the identity. -/
theorem Matrix4f.transformNormal_identity (n : Vector3f) :
    Matrix4f.identity.transformNormal n = n := by
  cases n with
  | mk x y z => simp [Matrix4f.transformNormal, Matrix4f.identity]

/-- Mapping the identity point transform over a vertex list is a no-op. -/
theorem map_transformPoint_identity (l : List Vector3f) :
    l.map Matrix4f.identity.transformPoint = l := by
  induction l with
  | nil => rfl
  | cons v vs ih => simp [Matrix4f.transformPoint_identity, ih]

/-- Mapping the identity normal transform over a vertex list is a no-op. -/
theorem map_transformNormal_identity (l : List Vector3f) :
    l.map Matrix4f.identity.transformNormal = l := by
  induction l with
  | nil => rfl
  | cons v vs ih => simp [Matrix4f.transformNormal_identity, ih]

/-- **C1**: the claim that `FuseMultiple()` always leaves the shared
volume in the same state as `Fuse()` fails on the code: with four cameras,
`Fuse()` succeeds and accumulates four single-camera fusion events, while
`FuseMultiple()` writes entry 3 of its fixed 3-element parameter vector —
past the end, an out-of-bounds error — and never reaches the batched
volume call. -/
theorem C1_fuseMultiple_diverges_from_fuse_at_four_cameras :
    pipelineFour.FuseMultiple = none ∧
    pipelineFour.Fuse.map (fun q => q.regular_grid.fusedHistory.length) = some 4 := by
  decide

namespace MultiStaticCameraPipeline

/-- Unfolding of the packed entry built for camera `i` in `FuseMultiple()`. -/
theorem packedCameraAt_def (p : MultiStaticCameraPipeline) (i : Nat) :
    p.packedCameraAt i =
      (p.camera_params.get? i).bind fun cp =>
      (p.depth_camera_poses_cfw.get? i).bind fun pose =>
      some
        { flpp := packFlpp cp.depth.intrinsics
          depth_min_max := cp.depth.depth_range.leftRight
          camera_from_world := pose.asMatrix } := rfl

/-- Unfolding of `FuseMultiple()` into packing loop plus batched call. -/
theorem fuseMultiple_def (p : MultiStaticCameraPipeline) :
    p.FuseMultiple =
      (p.packLoop (List.range p.depth_meters.length)
          (List.replicate 3 default)).bind fun c =>
      some
        { p with
          regular_grid :=
            p.regular_grid.FuseMultiple c p.undistorted_depth_meters } := rfl

end MultiStaticCameraPipeline

/-- **C3** counterexample: construction with a one-element calibration
list, an empty pose list (mismatched lengths), a non-positive resolution
and a degenerate depth range succeeds with a fully constructed pipeline
instead of failing fast with a construction error. -/
theorem C3_construction_accepts_invalid_configuration :
    (MultiStaticCameraPipeline.mk? [degenerateCalibration] []
        ⟨64, 64, 64⟩ ⟨Matrix4f.identity⟩ 1).isSome = true ∧
    [degenerateCalibration].length ≠ ([] : List EuclideanTransform).length ∧
    degenerateCalibration.depth.resolution.x ≤ 0 ∧
    degenerateCalibration.depth.depth_range.right ≤
      degenerateCalibration.depth.depth_range.left := by
  refine ⟨rfl, by decide, by decide, ?_⟩
  norm_num [degenerateCalibration]

/-- **C3** (amended): construction performs no validation of list lengths,
resolutions or depth ranges; it fails only when the calibration list is
empty — the constructor indexes `camera_params[0]` for the depth processor
— and otherwise always yields a fully constructed pipeline. -/
theorem C3_construction_fails_only_on_empty_calibrations
    (camera_params : List RGBDCameraParameters) (poses : List EuclideanTransform)
    (g : Vector3i) (w : SimilarityTransform) (m : Rat) :
    MultiStaticCameraPipeline.mk? camera_params poses g w m = none ↔
      camera_params = [] := by
  cases camera_params with
  | nil => simp [MultiStaticCameraPipeline.mk?_def]
  | cons a rest => simp [MultiStaticCameraPipeline.mk?_def]

/-- **C4**: `FuseMultiple()` packs the per-camera parameters into a fixed
3-entry vector regardless of the camera count: with more than 3 cameras
the per-camera write indexes past the end of that vector and the
embedding's out-of-bounds branch is reached, and with fewer than 3
cameras the batched volume call receives a 3-entry parameter list whose
unused slots hold the value-initialized default entry. -/
theorem C4_fuseMultiple_fixed_capacity (p : MultiStaticCameraPipeline) :
    (3 < p.depth_meters.length → p.FuseMultiple = none) ∧
    (p.depth_meters.length < 3 →
      p.camera_params.length = p.depth_meters.length →
      p.depth_camera_poses_cfw.length = p.depth_meters.length →
      ∃ c, p.packLoop (List.range p.depth_meters.length)
            (List.replicate 3 default) = some c ∧
        p.FuseMultiple =
          some { p with regular_grid :=
            p.regular_grid.FuseMultiple c p.undistorted_depth_meters } ∧
        c.length = 3 ∧
        ∀ j, p.depth_meters.length ≤ j → j < 3 → c.get? j = some default) := by
  constructor
  · intro h3
    have hnone : p.packLoop (List.range p.depth_meters.length)
        (List.replicate 3 default) = none :=
      MultiStaticCameraPipeline.packLoop_overflow p _ _
        ⟨3, List.mem_range.mpr (by omega), by simp⟩
    rw [MultiStaticCameraPipeline.fuseMultiple_def, hnone]
    rfl
  · intro hlt hc hp
    have h3 : p.depth_meters.length = 0 ∨ p.depth_meters.length = 1 ∨
        p.depth_meters.length = 2 := by omega
    rcases h3 with h | h | h
    · have hpack : p.packLoop (List.range p.depth_meters.length)
          (List.replicate 3 default) = some (List.replicate 3 default) := by
        rw [h]; rfl
      refine ⟨List.replicate 3 default, hpack, ?_, rfl, ?_⟩
      · rw [MultiStaticCameraPipeline.fuseMultiple_def, hpack]
        rfl
      · intro j h1 h2
        interval_cases j <;> rfl
    · obtain ⟨cp0, hcp0⟩ : ∃ a, p.camera_params.get? 0 = some a :=
        ⟨_, List.get?_eq_get (by omega)⟩
      obtain ⟨e0, he0⟩ : ∃ a, p.depth_camera_poses_cfw.get? 0 = some a :=
        ⟨_, List.get?_eq_get (by omega)⟩
      obtain ⟨e, he⟩ : ∃ e, p.packedCameraAt 0 = some e := by
        rw [MultiStaticCameraPipeline.packedCameraAt_def, hcp0, he0]
        exact ⟨_, rfl⟩
      have hpack : p.packLoop (List.range p.depth_meters.length)
          (List.replicate 3 default) = some [e, default, default] := by
        rw [h, show List.range 1 = [0] from rfl,
          MultiStaticCameraPipeline.packLoop_cons_def, he]
        simp only [Option.some_bind]
        rw [if_pos (by simp)]
        rfl
      refine ⟨[e, default, default], hpack, ?_, rfl, ?_⟩
      · rw [MultiStaticCameraPipeline.fuseMultiple_def, hpack]
        rfl
      · intro j h1 h2
        rw [h] at h1
        interval_cases j <;> rfl
    · obtain ⟨cp0, hcp0⟩ : ∃ a, p.camera_params.get? 0 = some a :=
        ⟨_, List.get?_eq_get (by omega)⟩
      obtain ⟨e0, he0⟩ : ∃ a, p.depth_camera_poses_cfw.get? 0 = some a :=
        ⟨_, List.get?_eq_get (by omega)⟩
      obtain ⟨cp1, hcp1⟩ : ∃ a, p.camera_params.get? 1 = some a :=
        ⟨_, List.get?_eq_get (by omega)⟩
      obtain ⟨e1, he1⟩ : ∃ a, p.depth_camera_poses_cfw.get? 1 = some a :=
        ⟨_, List.get?_eq_get (by omega)⟩
      obtain ⟨f0, hf0⟩ : ∃ e, p.packedCameraAt 0 = some e := by
        rw [MultiStaticCameraPipeline.packedCameraAt_def, hcp0, he0]
        exact ⟨_, rfl⟩
      obtain ⟨f1, hf1⟩ : ∃ e, p.packedCameraAt 1 = some e := by
        rw [MultiStaticCameraPipeline.packedCameraAt_def, hcp1, he1]
        exact ⟨_, rfl⟩
      have hpack : p.packLoop (List.range p.depth_meters.length)
          (List.replicate 3 default) = some [f0, f1, default] := by
        rw [h, show List.range 2 = [0, 1] from rfl,
          MultiStaticCameraPipeline.packLoop_cons_def, hf0]
        simp only [Option.some_bind]
        rw [if_pos (by simp)]
        rw [show (List.replicate 3 (default : CalibratedPosedDepthCamera)).set 0 f0 =
            [f0, default, default] from rfl,
          MultiStaticCameraPipeline.packLoop_cons_def, hf1]
        simp only [Option.some_bind]
        rw [if_pos (by simp)]
        rfl
      refine ⟨[f0, f1, default], hpack, ?_, rfl, ?_⟩
      · rw [MultiStaticCameraPipeline.fuseMultiple_def, hpack]
        rfl
      · intro j h1 h2
        rw [h] at h1
        interval_cases j
        rfl

/-- Witness for **C4**: the four-camera pipeline reaches the out-of-bounds
branch, and the one-camera pipeline's batched call carries two default
entries in slots 1 and 2. -/
theorem C4_fuseMultiple_fixed_capacity_witness :
    pipelineFour.FuseMultiple = none ∧
    (∃ c, pipelineOne.packLoop (List.range pipelineOne.depth_meters.length)
          (List.replicate 3 default) = some c ∧
      pipelineOne.FuseMultiple =
        some { pipelineOne with regular_grid := pipelineOne.regular_grid.FuseMultiple c pipelineOne.undistorted_depth_meters } ∧
      c.length = 3 ∧
      ∀ j, pipelineOne.depth_meters.length ≤ j → j < 3 →
        c.get? j = some default) :=
  ⟨(C4_fuseMultiple_fixed_capacity pipelineFour).1 (by decide),
   (C4_fuseMultiple_fixed_capacity pipelineOne).2 (by decide) (by decide) (by decide)⟩

/-- **C2** counterexample: in the two-camera pipeline,
`NotifyInputUpdated(1, ...)` hands the undistortion kernel camera 1's own
undistortion map (content id 71) but camera 0's intrinsics and depth
range — the single `depth_processor_` was constructed from
`camera_params[0]` — and those differ from camera 1's own intrinsics and
depth range. -/
theorem C2_notify_undistorts_with_camera_zero_parameters :
    ((pipelineTwo.NotifyInputUpdated 1 true true).bind
        (fun p' => (p'.undistorted_depth_meters.get? 1).map DepthBuffer.contents)) =
      some (.undistorted .uninit 71 (sampleCalibration 0).depth.intrinsics
        (sampleCalibration 0).depth.depth_range) ∧
    (sampleCalibration 0).depth.intrinsics ≠ (sampleCalibration 1).depth.intrinsics ∧
    (sampleCalibration 0).depth.depth_range ≠ (sampleCalibration 1).depth.depth_range := by
  refine ⟨rfl, ?_, ?_⟩ <;> norm_num [sampleCalibration]

/-- **C2** (amended): for every constructed pipeline and every reachable
state, `NotifyInputUpdated(i, ...)` copies camera i's externally supplied
raw depth into `rawDepth[i]` and undistorts it into `undistortedDepth[i]`
using camera i's own undistortion map, but with the intrinsics and depth
range of the single shared depth processor — those of camera 0, not
camera i's. -/
theorem C2_notify_copy_undistort_shared_processor
    (params : List RGBDCameraParameters) (poses : List EuclideanTransform)
    (g : Vector3i) (w : SimilarityTransform) (m : Rat)
    (calls : List MultiStaticCameraPipeline.PipelineCall)
    (p₀ p p' : MultiStaticCameraPipeline) (i : Nat) (cu du : Bool)
    (cp₀ cpI : RGBDCameraParameters)
    (hmk : MultiStaticCameraPipeline.mk? params poses g w m = some p₀)
    (hrun : p₀.runCalls calls = some p)
    (h : p.NotifyInputUpdated i cu du = some p')
    (h0 : params.get? 0 = some cp₀)
    (hi : params.get? i = some cpI) :
    ∃ input, p.input_buffers.get? i = some input ∧
      (p'.depth_meters.get? i).map DepthBuffer.contents =
        some input.depth_meters.contents ∧
      (p'.undistorted_depth_meters.get? i).map DepthBuffer.contents =
        some (.undistorted input.depth_meters.contents
          cpI.depth.undistortion_map.data
          cp₀.depth.intrinsics cp₀.depth.depth_range) := by
  obtain ⟨input, raw, map, und, h1, h2, h3, h4, hp'⟩ :=
    MultiStaticCameraPipeline.notifyInputUpdated_eq_some p i cu du p' h
  obtain ⟨e1, e2, e3, e4⟩ :=
    MultiStaticCameraPipeline.runCalls_static_fields calls p₀ p hrun
  obtain ⟨first, hfirst, hp₀⟩ :=
    MultiStaticCameraPipeline.mk?_eq_some params poses g w m p₀ hmk
  have hfirst' : first = cp₀ := by
    rw [hfirst] at h0
    exact Option.some_injective _ h0
  have hproc : p.depth_processor = ⟨cp₀.depth.intrinsics, cp₀.depth.depth_range⟩ := by
    rw [e3, hp₀, hfirst']
  have hmapi : p.depth_camera_undistort_maps.get? i =
      some ⟨cpI.depth.resolution, cpI.depth.undistortion_map.data⟩ := by
    rw [e4, hp₀]
    show (params.map
      (fun cp => (⟨cp.depth.resolution, cp.depth.undistortion_map.data⟩ : MapBuffer))).get? i = _
    rw [List.get?_map, hi]
    rfl
  have hmap : map = ⟨cpI.depth.resolution, cpI.depth.undistortion_map.data⟩ :=
    Option.some_injective _ (h3.symm.trans hmapi)
  subst hp'
  refine ⟨input, h1, ?_, ?_⟩
  · show ((p.depth_meters.set i _).get? i).map DepthBuffer.contents = _
    rw [list_get?_set, if_pos rfl, h2]
    rfl
  · show ((p.undistorted_depth_meters.set i _).get? i).map DepthBuffer.contents = _
    rw [list_get?_set, if_pos rfl, h4]
    rw [hmap, hproc]
    rfl

/-- Witness for **C2** (amended), at the pushed two-camera pipeline and
camera 1. -/
theorem C2_notify_copy_undistort_witness :
    ∃ input, pipelineTwoPushed.input_buffers.get? 1 = some input ∧
      (pipelineTwoNotified.depth_meters.get? 1).map DepthBuffer.contents =
        some input.depth_meters.contents ∧
      (pipelineTwoNotified.undistorted_depth_meters.get? 1).map DepthBuffer.contents =
        some (.undistorted input.depth_meters.contents
          (sampleCalibration 1).depth.undistortion_map.data
          (sampleCalibration 0).depth.intrinsics
          (sampleCalibration 0).depth.depth_range) :=
  C2_notify_copy_undistort_shared_processor
    (sampleParams 2) (samplePoses 2) ⟨64, 64, 64⟩ ⟨Matrix4f.identity⟩ (1/50)
    [.push 1 9] pipelineTwo pipelineTwoPushed pipelineTwoNotified 1 false false
    (sampleCalibration 0) (sampleCalibration 1) rfl rfl rfl rfl rfl

/-- **C5**: `Fuse()` issues exactly one fusion call per camera into the
shared volume, in index order 0 to N-1, each carrying that camera's packed
focal length and principal point, that camera's depth range, that camera's
camera-from-world pose matrix, and whatever the current contents of that
camera's undistorted depth buffer are — with no staleness or readiness
check on the depth map. -/
theorem C5_fuse_one_call_per_camera (p : MultiStaticCameraPipeline)
    (hc : p.camera_params.length = p.depth_meters.length)
    (hp : p.depth_camera_poses_cfw.length = p.depth_meters.length)
    (hu : p.undistorted_depth_meters.length = p.depth_meters.length) :
    ∃ es : List FuseEvent, p.Fuse =
        some { p with regular_grid :=
          { p.regular_grid with ops := p.regular_grid.ops ++ es.map VolumeOp.fuse } } ∧
      es.length = p.depth_meters.length ∧
      ∀ i cp pose und, p.camera_params.get? i = some cp →
        p.depth_camera_poses_cfw.get? i = some pose →
        p.undistorted_depth_meters.get? i = some und →
        es.get? i = some
          { flpp := packFlpp cp.depth.intrinsics
            depth_range := cp.depth.depth_range
            camera_from_world := pose.asMatrix
            depth_map := und } := by
  obtain ⟨es, hes, hlen, hget⟩ := MultiStaticCameraPipeline.fuseLoop_collects p
    (List.range p.depth_meters.length)
    (fun i hi =>
      MultiStaticCameraPipeline.fuseOpAt_isSome p hc hp hu i (List.mem_range.mp hi))
  refine ⟨es, ?_, by rw [hlen, List.length_range], ?_⟩
  · rw [show p.Fuse =
        (p.fuseLoop (List.range p.depth_meters.length)).bind
          (fun es => some { p with regular_grid :=
            { p.regular_grid with
              ops := p.regular_grid.ops ++ es.map VolumeOp.fuse } }) from rfl, hes]
    rfl
  · intro i cp pose und hcp hpose hund
    have hiN : i < p.depth_meters.length := by
      by_contra hcon
      rw [List.get?_eq_none.mpr (by omega)] at hcp
      exact Option.noConfusion hcp
    rw [hget i, List.get?_range hiN]
    simp only [Option.some_bind]
    rw [MultiStaticCameraPipeline.fuseOpAt_def, hcp, hpose, hund]
    rfl

/-- Witness for **C5**, at the two-camera pipeline and camera 1. -/
theorem C5_fuse_one_call_per_camera_witness :
    ∃ es : List FuseEvent, pipelineTwo.Fuse =
        some { pipelineTwo with regular_grid :=
          { pipelineTwo.regular_grid with
            ops := pipelineTwo.regular_grid.ops ++ es.map VolumeOp.fuse } } ∧
      es.length = pipelineTwo.depth_meters.length ∧
      ∀ i cp pose und, pipelineTwo.camera_params.get? i = some cp →
        pipelineTwo.depth_camera_poses_cfw.get? i = some pose →
        pipelineTwo.undistorted_depth_meters.get? i = some und →
        es.get? i = some
          { flpp := packFlpp cp.depth.intrinsics
            depth_range := cp.depth.depth_range
            camera_from_world := pose.asMatrix
            depth_map := und } :=
  C5_fuse_one_call_per_camera pipelineTwo rfl rfl rfl

/-- **C6**: `Raycast()` rescales the viewpoint camera's intrinsics to the
output buffer's resolution — not the calibrated sensor resolution — packs
the rescaled focal length and principal point, passes the derived
world-from-camera matrix, and dispatches to the adaptive-step raycast
exactly when the `adaptive_raycast` configuration flag is set and to the
fixed-step raycast otherwise. -/
theorem C6_raycast_rescales_and_dispatches (p : MultiStaticCameraPipeline)
    (adaptive_raycast : Bool) (camera : PerspectiveCamera)
    (world_points_size world_normals_size : Vector2i) :
    p.Raycast adaptive_raycast camera world_points_size world_normals_size =
      { adaptive := adaptive_raycast
        flpp :=
          ⟨camera.intrinsics.focalLength.x * (world_points_size.x : Rat) / camera.image_size.x,
           camera.intrinsics.focalLength.y * (world_points_size.y : Rat) / camera.image_size.y,
           camera.intrinsics.principalPoint.x * (world_points_size.x : Rat) / camera.image_size.x,
           camera.intrinsics.principalPoint.y * (world_points_size.y : Rat) / camera.image_size.y⟩
        world_from_camera := camera.camera_from_world.inverse.asMatrix
        out_size := world_points_size } := by
  cases adaptive_raycast <;> rfl

/-- **C7**: `Triangulate(T)` is `Triangulate(identity)` with `T` applied
afterwards: every position by the full point transform (including
translation), every normal by the linear part of `T`, vertex for vertex
in the extracted order, with no vertex reordered or dropped. -/
theorem C7_triangulate_equivariance (grid_mesh : TriangleMesh) (T : Matrix4f) :
    (MultiStaticCameraPipeline.Triangulate grid_mesh T).positions =
      (MultiStaticCameraPipeline.Triangulate grid_mesh Matrix4f.identity).positions.map
        T.transformPoint ∧
    (MultiStaticCameraPipeline.Triangulate grid_mesh T).normals =
      (MultiStaticCameraPipeline.Triangulate grid_mesh Matrix4f.identity).normals.map
        T.transformNormal ∧
    (∀ k, (MultiStaticCameraPipeline.Triangulate grid_mesh T).positions.get? k =
      ((MultiStaticCameraPipeline.Triangulate grid_mesh
          Matrix4f.identity).positions.get? k).map T.transformPoint) ∧
    (MultiStaticCameraPipeline.Triangulate grid_mesh T).positions.length =
      grid_mesh.positions.length ∧
    (MultiStaticCameraPipeline.Triangulate grid_mesh T).normals.length =
      grid_mesh.normals.length := by
  unfold MultiStaticCameraPipeline.Triangulate
  refine ⟨?_, ?_, fun k => ?_, by simp, by simp⟩
  · rw [map_transformPoint_identity]
  · rw [map_transformNormal_identity]
  · rw [map_transformPoint_identity]
    exact List.get?_map T.transformPoint grid_mesh.positions k

/-- **C8** counterexample: the claim that an out-of-range index is
signaled as a defined out-of-range fault is false on the code.
`GetCameraParameters` has no error channel at all — the source returns a
plain reference through an unchecked `std::vector::operator[]`, with no
bounds check, no exception and no sentinel — so at index 5 on the
two-camera pipeline the subscript is out of bounds and the outcome is
undefined behavior: not a defined fault, and also not any camera's
(clamped or wrapped) parameters. -/
theorem C8_getCameraParameters_no_defined_fault :
    pipelineTwo.GetCameraParameters 5 = .undefinedBehavior ∧
    (∀ cp : RGBDCameraParameters, pipelineTwo.GetCameraParameters 5 ≠ .value cp) := by
  refine ⟨rfl, fun cp h => ?_⟩
  rw [show pipelineTwo.GetCameraParameters 5 =
      SubscriptResult.undefinedBehavior from rfl] at h
  exact SubscriptResult.noConfusion h

/-- **C8** (amended): `GetCameraParameters(i)` performs an unchecked
subscript: for every index outside `[0, N)` the access is out of bounds —
undefined behavior, not a signaled defined fault — and the index is
neither clamped nor wrapped: every in-range index returns exactly that
camera's parameters, and an out-of-range index returns no camera's
parameters at all.  Guarding the index is the caller's responsibility. -/
theorem C8_getCameraParameters_unchecked_access (p : MultiStaticCameraPipeline)
    (i : Int) :
    ((i < 0 ∨ (p.camera_params.length : Int) ≤ i) →
      p.GetCameraParameters i = .undefinedBehavior) ∧
    (0 ≤ i → i < (p.camera_params.length : Int) →
      ∀ cp, p.camera_params.get? i.toNat = some cp →
        p.GetCameraParameters i = .value cp) := by
  constructor
  · intro h
    unfold MultiStaticCameraPipeline.GetCameraParameters
    rcases h with h | h
    · rw [if_neg (by omega)]
    · rw [if_pos (by omega),
        List.get?_eq_none.mpr (by omega : p.camera_params.length ≤ i.toNat)]
  · intro h0 hN cp hcp
    unfold MultiStaticCameraPipeline.GetCameraParameters
    rw [if_pos h0, hcp]

/-- Witness for **C8** (amended): on the two-camera pipeline, indexes 5
and -1 hit the out-of-bounds access and index 1 returns camera 1's own
parameters. -/
theorem C8_getCameraParameters_unchecked_access_witness :
    pipelineTwo.GetCameraParameters 5 = .undefinedBehavior ∧
    pipelineTwo.GetCameraParameters (-1) = .undefinedBehavior ∧
    pipelineTwo.GetCameraParameters 1 = .value (sampleCalibration 1) :=
  ⟨(C8_getCameraParameters_unchecked_access pipelineTwo 5).1 (Or.inr (by decide)),
   (C8_getCameraParameters_unchecked_access pipelineTwo (-1)).1 (Or.inl (by decide)),
   (C8_getCameraParameters_unchecked_access pipelineTwo 1).2 (by decide) (by decide)
     (sampleCalibration 1) rfl⟩

/-- **C9**: after construction and any sequence of capture pushes and
`NotifyInputUpdated` calls, every raw and every undistorted depth buffer
has exactly the resolution declared in its camera's calibration; the
buffers are sized once at construction and no pipeline operation resizes
them. -/
theorem C9_buffer_resolutions_invariant (camera_params : List RGBDCameraParameters)
    (poses : List EuclideanTransform) (g : Vector3i) (w : SimilarityTransform)
    (m : Rat) (calls : List MultiStaticCameraPipeline.PipelineCall)
    (p₀ p : MultiStaticCameraPipeline)
    (hmk : MultiStaticCameraPipeline.mk? camera_params poses g w m = some p₀)
    (hrun : p₀.runCalls calls = some p) :
    ∀ i, ((p.depth_meters.get? i).map DepthBuffer.resolution =
            (camera_params.get? i).map (fun cp => cp.depth.resolution)) ∧
         ((p.undistorted_depth_meters.get? i).map DepthBuffer.resolution =
            (camera_params.get? i).map (fun cp => cp.depth.resolution)) := by
  have hinv := MultiStaticCameraPipeline.runCalls_preserves_resolutionInvariant
    calls p₀ p hrun
    (MultiStaticCameraPipeline.resolutionInvariant_of_mk? camera_params poses g w m p₀ hmk)
  have hparams : p.camera_params = camera_params := by
    obtain ⟨e1, -, -, -⟩ :=
      MultiStaticCameraPipeline.runCalls_static_fields calls p₀ p hrun
    obtain ⟨first, -, hp₀⟩ :=
      MultiStaticCameraPipeline.mk?_eq_some camera_params poses g w m p₀ hmk
    rw [e1, hp₀]
  intro i
  have hi := hinv i
  rw [hparams] at hi
  exact hi

/-- Witness for **C9**, at the one-camera pipeline after a push and a
notification. -/
theorem C9_buffer_resolutions_invariant_witness :
    ((pipelineOneRun.depth_meters.get? 0).map DepthBuffer.resolution =
      ((sampleParams 1).get? 0).map (fun cp => cp.depth.resolution)) ∧
    ((pipelineOneRun.undistorted_depth_meters.get? 0).map DepthBuffer.resolution =
      ((sampleParams 1).get? 0).map (fun cp => cp.depth.resolution)) :=
  C9_buffer_resolutions_invariant (sampleParams 1) (samplePoses 1) ⟨64, 64, 64⟩
    ⟨Matrix4f.identity⟩ (1/50) [.push 0 5, .notify 0 true false]
    pipelineOne pipelineOneRun rfl rfl 0

/-- **C10**: `NotifyInputUpdated(i, colorChanged, depthChanged)` mutates
pipeline-owned state for camera `i` only — the shared volume, the
calibrations, the poses, the processor, the map buffers, every input
buffer and every other camera's raw and undistorted depth buffers are
unchanged — the copy into `rawDepth[i]` happens, and the whole effect is
the same for any values of the two flags. -/
theorem C10_notify_mutates_only_camera_i (p : MultiStaticCameraPipeline)
    (i : Nat) (cu du : Bool) (p' : MultiStaticCameraPipeline)
    (h : p.NotifyInputUpdated i cu du = some p') :
    p'.regular_grid = p.regular_grid ∧
    p'.camera_params = p.camera_params ∧
    p'.depth_camera_poses_cfw = p.depth_camera_poses_cfw ∧
    p'.depth_processor = p.depth_processor ∧
    p'.depth_camera_undistort_maps = p.depth_camera_undistort_maps ∧
    p'.input_buffers = p.input_buffers ∧
    (∀ j, j ≠ i → p'.depth_meters.get? j = p.depth_meters.get? j ∧
      p'.undistorted_depth_meters.get? j = p.undistorted_depth_meters.get? j) ∧
    ((p'.depth_meters.get? i).map DepthBuffer.contents =
      (p.input_buffers.get? i).map (fun b => b.depth_meters.contents)) ∧
    (∀ cu' du', p.NotifyInputUpdated i cu' du' = some p') := by
  obtain ⟨input, raw, map, und, h1, h2, h3, h4, hp'⟩ :=
    MultiStaticCameraPipeline.notifyInputUpdated_eq_some p i cu du p' h
  subst hp'
  refine ⟨rfl, rfl, rfl, rfl, rfl, rfl, fun j hj => ?_, ?_, fun cu' du' => ?_⟩
  · constructor
    · show (p.depth_meters.set i _).get? j = _
      rw [list_get?_set, if_neg (fun hc => hj hc.symm)]
    · show (p.undistorted_depth_meters.set i _).get? j = _
      rw [list_get?_set, if_neg (fun hc => hj hc.symm)]
  · show ((p.depth_meters.set i _).get? i).map DepthBuffer.contents = _
    rw [list_get?_set, if_pos rfl, h2, h1]
    rfl
  · exact h

/-- Witness for **C10**, at the two-camera pipeline and camera 0: the
volume and camera 1's buffers are untouched and the flags are
irrelevant. -/
theorem C10_notify_mutates_only_camera_i_witness :
    pipelineTwoNotifyZero.regular_grid = pipelineTwo.regular_grid ∧
    pipelineTwoNotifyZero.input_buffers = pipelineTwo.input_buffers ∧
    (pipelineTwoNotifyZero.depth_meters.get? 1 = pipelineTwo.depth_meters.get? 1 ∧
     pipelineTwoNotifyZero.undistorted_depth_meters.get? 1 =
       pipelineTwo.undistorted_depth_meters.get? 1) ∧
    pipelineTwo.NotifyInputUpdated 0 false false = some pipelineTwoNotifyZero := by
  obtain ⟨hgrid, -, -, -, -, hinput, hother, -, hflags⟩ :=
    C10_notify_mutates_only_camera_i pipelineTwo 0 true true pipelineTwoNotifyZero rfl
  exact ⟨hgrid, hinput, hother 1 (by decide), hflags false false⟩

/-- Supporting evidence for the intended fusion-equivalence invariant: for
a pipeline with exactly three cameras — the capacity the source
hard-codes — `Fuse()` and `FuseMultiple()` do leave the shared volume with
the same fused history under the volume's batched-call contract. -/
theorem fuse_fuseMultiple_equiv_at_three_cameras (grid : RegularGridState)
    (cp0 cp1 cp2 : RGBDCameraParameters) (e0 e1 e2 : EuclideanTransform)
    (dp : DepthProcessor) (d0 d1 d2 : DepthBuffer) (m0 m1 m2 : MapBuffer)
    (u0 u1 u2 : DepthBuffer) (b0 b1 b2 : InputBuffer) :
    ∃ q q' : MultiStaticCameraPipeline,
      (MultiStaticCameraPipeline.mk grid [cp0, cp1, cp2] [e0, e1, e2] dp
        [d0, d1, d2] [m0, m1, m2] [u0, u1, u2] [b0, b1, b2]).Fuse = some q ∧
      (MultiStaticCameraPipeline.mk grid [cp0, cp1, cp2] [e0, e1, e2] dp
        [d0, d1, d2] [m0, m1, m2] [u0, u1, u2] [b0, b1, b2]).FuseMultiple = some q' ∧
      q.regular_grid.fusedHistory = q'.regular_grid.fusedHistory := by
  refine ⟨_, _, rfl, rfl, ?_⟩
  unfold RegularGridState.fusedHistory
  simp [List.foldl_append, VolumeOp.fusedEvents, List.append_assoc,
    RegularGridState.FuseMultiple, Range1f.leftRight]
